import Mathlib

/-!
Verification of the falconx-python REST client (`falconx/client.py`).

The development shallowly embeds the two components of the library —
the request signer `FXRfqAuth.__call__` and the client `FalconxClient`
(constructor, response normalizer `_process_response`, and the endpoint
catalog) — as executable Lean definitions, together with the library
primitives the code calls (HMAC-SHA256, base64, UTF-8 encoding, and the
query-string encoding performed by the HTTP layer).  Bytes are `Nat`
values below 256, 32-bit words are `Nat` reduced modulo `2 ^ 32`.
-/

namespace Falconx

/-- Reduce a value to a 32-bit word, as done implicitly by 32-bit
arithmetic in the SHA-256 compression function. -/
def w32 (n : Nat) : Nat := n % 4294967296

/-- Rotate a 32-bit word right by `n` bits. -/
def rotr (n x : Nat) : Nat := w32 ((x >>> n) ||| (x <<< (32 - n)))

/-- Logical right shift. -/
def shr (n x : Nat) : Nat := x >>> n

/-- Bitwise complement of a 32-bit word. -/
def not32 (x : Nat) : Nat := x ^^^ 4294967295

/-- SHA-256 big sigma-0 function. -/
def bSig0 (x : Nat) : Nat := rotr 2 x ^^^ rotr 13 x ^^^ rotr 22 x

/-- SHA-256 big sigma-1 function. -/
def bSig1 (x : Nat) : Nat := rotr 6 x ^^^ rotr 11 x ^^^ rotr 25 x

/-- SHA-256 small sigma-0 function. -/
def sSig0 (x : Nat) : Nat := rotr 7 x ^^^ rotr 18 x ^^^ shr 3 x

/-- SHA-256 small sigma-1 function. -/
def sSig1 (x : Nat) : Nat := rotr 17 x ^^^ rotr 19 x ^^^ shr 10 x

/-- SHA-256 choice function. -/
def ch (x y z : Nat) : Nat := (x &&& y) ^^^ (not32 x &&& z)

/-- SHA-256 majority function. -/
def maj (x y z : Nat) : Nat := (x &&& y) ^^^ (x &&& z) ^^^ (y &&& z)

/-- The 64 SHA-256 round constants (FIPS 180-4, written in decimal). -/
def shaK : List Nat :=
  [1116352408, 1899447441, 3049323471, 3921009573, 961987163, 1508970993,
   2453635748, 2870763221, 3624381080, 310598401, 607225278, 1426881987,
   1925078388, 2162078206, 2614888103, 3248222580, 3835390401, 4022224774,
   264347078, 604807628, 770255983, 1249150122, 1555081692, 1996064986,
   2554220882, 2821834349, 2952996808, 3210313671, 3336571891, 3584528711,
   113926993, 338241895, 666307205, 773529912, 1294757372, 1396182291,
   1695183700, 1986661051, 2177026350, 2456956037, 2730485921, 2820302411,
   3259730800, 3345764771, 3516065817, 3600352804, 4094571909, 275423344,
   430227734, 506948616, 659060556, 883997877, 958139571, 1322822218,
   1537002063, 1747873779, 1955562222, 2024104815, 2227730452, 2361852424,
   2428436474, 2756734187, 3204031479, 3329325298]

/-- The eight-word SHA-256 working state. -/
structure Hash8 where
  a : Nat
  b : Nat
  c : Nat
  d : Nat
  e : Nat
  f : Nat
  g : Nat
  h : Nat
deriving DecidableEq

/-- Initial SHA-256 hash state (FIPS 180-4, written in decimal). -/
def shaInit : Hash8 :=
  ⟨1779033703, 3144134277, 1013904242, 2773480762,
   1359893119, 2600822924, 528734635, 1541459225⟩

/-- One step of the message-schedule extension.  `rev` holds the schedule
produced so far, most recent word first. -/
def extendStep (rev : List Nat) : Nat :=
  w32 (sSig1 (rev.getD 1 0) + rev.getD 6 0 + sSig0 (rev.getD 14 0) + rev.getD 15 0)

/-- Extend the reversed 16-word schedule by `n` further words. -/
def extendW : Nat → List Nat → List Nat
  | 0, rev => rev.reverse
  | n + 1, rev => extendW n (extendStep rev :: rev)

/-- The full 64-word message schedule of a 16-word block. -/
def schedule (block : List Nat) : List Nat := extendW 48 block.reverse

/-- One SHA-256 round: fold the pair of round constant and schedule word
into the working state. -/
def shaRound (s : Hash8) (kw : Nat × Nat) : Hash8 :=
  let t1 := w32 (s.h + bSig1 s.e + ch s.e s.f s.g + kw.1 + kw.2)
  let t2 := w32 (bSig0 s.a + maj s.a s.b s.c)
  ⟨w32 (t1 + t2), s.a, s.b, s.c, w32 (s.d + t1), s.e, s.f, s.g⟩

/-- Compress one 16-word block into the running hash state. -/
def compress (s : Hash8) (block : List Nat) : Hash8 :=
  let r := (shaK.zip (schedule block)).foldl shaRound s
  ⟨w32 (s.a + r.a), w32 (s.b + r.b), w32 (s.c + r.c), w32 (s.d + r.d),
   w32 (s.e + r.e), w32 (s.f + r.f), w32 (s.g + r.g), w32 (s.h + r.h)⟩

/-- Group a byte list into big-endian 32-bit words. -/
def bytesToWords : List Nat → List Nat
  | a :: b :: c :: d :: rest => (a * 16777216 + b * 65536 + c * 256 + d) :: bytesToWords rest
  | _ => []

/-- The eight-byte big-endian encoding of the bit length. -/
def lenBytes (n : Nat) : List Nat :=
  [(n >>> 56) % 256, (n >>> 48) % 256, (n >>> 40) % 256, (n >>> 32) % 256,
   (n >>> 24) % 256, (n >>> 16) % 256, (n >>> 8) % 256, n % 256]

/-- SHA-256 padding: a 0x80 byte, zeros to 56 mod 64, then the 64-bit
big-endian message length in bits. -/
def shaPad (msg : List Nat) : List Nat :=
  let l := msg.length
  msg ++ 128 :: List.replicate ((64 + 55 - l % 64) % 64) 0 ++ lenBytes (l * 8)

/-- Split a byte list into 64-byte chunks; the first argument is fuel,
instantiated with the list length. -/
def chunks64 : Nat → List Nat → List (List Nat)
  | 0, _ => []
  | fuel + 1, l => if l.isEmpty then [] else l.take 64 :: chunks64 fuel (l.drop 64)

/-- SHA-256 of a byte list, as a 32-byte digest. -/
def sha256 (msg : List Nat) : List Nat :=
  let padded := shaPad msg
  let final := (chunks64 padded.length padded).foldl (fun s b => compress s (bytesToWords b)) shaInit
  [(final.a >>> 24) % 256, (final.a >>> 16) % 256, (final.a >>> 8) % 256, final.a % 256,
     (final.b >>> 24) % 256, (final.b >>> 16) % 256, (final.b >>> 8) % 256, final.b % 256,
     (final.c >>> 24) % 256, (final.c >>> 16) % 256, (final.c >>> 8) % 256, final.c % 256,
     (final.d >>> 24) % 256, (final.d >>> 16) % 256, (final.d >>> 8) % 256, final.d % 256,
     (final.e >>> 24) % 256, (final.e >>> 16) % 256, (final.e >>> 8) % 256, final.e % 256,
     (final.f >>> 24) % 256, (final.f >>> 16) % 256, (final.f >>> 8) % 256, final.f % 256,
     (final.g >>> 24) % 256, (final.g >>> 16) % 256, (final.g >>> 8) % 256, final.g % 256,
     (final.h >>> 24) % 256, (final.h >>> 16) % 256, (final.h >>> 8) % 256, final.h % 256]

/-- HMAC-SHA256 with a 64-byte block size, following RFC 2104 as
implemented by Python's `hmac` module. -/
def hmacSha256 (key msg : List Nat) : List Nat :=
  let k0 := if 64 < key.length then sha256 key else key
  let kp := k0 ++ List.replicate (64 - k0.length) 0
  sha256 (kp.map (fun b => b ^^^ 92) ++ sha256 (kp.map (fun b => b ^^^ 54) ++ msg))

/-- The standard base64 alphabet. -/
def b64Alphabet : List Char :=
  "ABCDEFGHIJKLMNOPQRSTUVWXYZabcdefghijklmnopqrstuvwxyz0123456789+/".toList

/-- Index of a character in a character list. -/
def charIndex : List Char → Char → Option Nat
  | [], _ => none
  | c :: rest, x => if c = x then some 0 else (charIndex rest x).map (· + 1)

/-- The base64 character for a 6-bit value. -/
def b64CharOf (n : Nat) : Char := b64Alphabet.getD n 'A'

/-- Base64-encode a byte list, with padding, as `base64.b64encode`. -/
def b64encodeBytes : List Nat → String
  | [] => ""
  | [a] => String.mk [b64CharOf (a >>> 2), b64CharOf ((a % 4) <<< 4), '=', '=']
  | [a, b] => String.mk [b64CharOf (a >>> 2), b64CharOf (((a % 4) <<< 4) ||| (b >>> 4)),
                         b64CharOf ((b % 16) <<< 2), '=']
  | a :: b :: c :: rest =>
    String.mk [b64CharOf (a >>> 2), b64CharOf (((a % 4) <<< 4) ||| (b >>> 4)),
               b64CharOf (((b % 16) <<< 2) ||| (c >>> 6)), b64CharOf (c % 64)] ++
    b64encodeBytes rest

/-- Decode a list of 6-bit values (groups of 4, with a possibly shorter
final group of 2 or 3) into bytes. -/
def b64Groups : List Nat → List Nat
  | a :: b :: c :: d :: rest =>
    ((a <<< 2) ||| (b >>> 4)) :: (((b % 16) <<< 4) ||| (c >>> 2)) :: (((c % 4) <<< 6) ||| d) ::
      b64Groups rest
  | [a, b] => [(a <<< 2) ||| (b >>> 4)]
  | [a, b, c] => [(a <<< 2) ||| (b >>> 4), ((b % 16) <<< 4) ||| (c >>> 2)]
  | _ => []

/-- Base64-decode a string as Python's `base64.b64decode` with its default
`validate=False`: characters outside the alphabet and `=` are discarded,
and the remaining length must be a multiple of four (padding included),
with the number of data characters not 1 more than a multiple of 4;
otherwise a `binascii.Error` is raised, modelled as `Except.error`. -/
def b64decode (s : String) : Except String (List Nat) :=
  let kept := s.toList.filter (fun c => (charIndex b64Alphabet c).isSome || c = '=')
  let data := kept.filter (fun c => c ≠ '=')
  if kept.length % 4 ≠ 0 then Except.error "Incorrect padding"
  else if data.length % 4 = 1 then Except.error "Invalid base64-encoded string"
  else Except.ok (b64Groups (data.map (fun c => (charIndex b64Alphabet c).getD 0)))

/-- UTF-8 encoding of one character. -/
def utf8Char (c : Char) : List Nat :=
  let n := c.toNat
  if n < 128 then [n]
  else if n < 2048 then [192 + n / 64, 128 + n % 64]
  else if n < 65536 then [224 + n / 4096, 128 + (n / 64) % 64, 128 + n % 64]
  else [240 + n / 262144, 128 + (n / 4096) % 64, 128 + (n / 64) % 64, 128 + n % 64]

/-- UTF-8 encoding of a string, as Python's `str.encode()`. -/
def utf8Encode (s : String) : List Nat :=
  s.toList.foldr (fun c acc => utf8Char c ++ acc) []

/-- JSON values, the payloads the client sends (via `json=` keyword
arguments) and receives (via `response.json()`). -/
inductive JVal where
  | null : JVal
  | str : String → JVal
  | num : Int → JVal
  | bool : Bool → JVal
  | arr : List JVal → JVal
  | obj : List (String × JVal) → JVal

/-- JSON string escaping (only the characters appearing in this client's
payloads are special-cased; the double quote and backslash). -/
def jEscapeChar (c : Char) : String :=
  if c = '"' then "\\\"" else if c = '\\' then "\\\\" else String.mk [c]

/-- Escape a JSON string body. -/
def jEscape (s : String) : String :=
  s.toList.foldl (fun acc c => acc ++ jEscapeChar c) ""

/-- Join strings with a separator. -/
def joinSep (sep : String) : List String → String
  | [] => ""
  | [x] => x
  | x :: rest => x ++ sep ++ joinSep sep rest

mutual

/-- Serialize a JSON value the way `json.dumps` does with its default
separators, which is what `requests` uses for `json=` bodies. -/
def serializeJVal : JVal → String
  | JVal.null => "null"
  | JVal.str s => "\"" ++ jEscape s ++ "\""
  | JVal.num n => toString n
  | JVal.bool b => if b then "true" else "false"
  | JVal.arr xs => "[" ++ joinSep ", " (serializeList xs) ++ "]"
  | JVal.obj fs => "\x7b" ++ joinSep ", " (serializeFields fs) ++ "\x7d"

/-- Serialize the elements of a JSON array. -/
def serializeList : List JVal → List String
  | [] => []
  | x :: rest => serializeJVal x :: serializeList rest

/-- Serialize the fields of a JSON object. -/
def serializeFields : List (String × JVal) → List String
  | [] => []
  | (k, v) :: rest => ("\"" ++ jEscape k ++ "\": " ++ serializeJVal v) :: serializeFields rest

end

/-- Characters that `urllib.parse.quote_plus` leaves unescaped. -/
def isUnreservedQP (c : Char) : Bool :=
  c.isAlphanum || c = '_' || c = '.' || c = '-' || c = '~'

/-- Upper-case hexadecimal digit. -/
def hexDigit (n : Nat) : Char := "0123456789ABCDEF".toList.getD n '0'

/-- Percent-encode one character as `quote_plus` does: unreserved
characters pass through, a space becomes `+`, anything else becomes
`%HH` per UTF-8 byte. -/
def quotePlusChar (c : Char) : String :=
  if isUnreservedQP c then String.mk [c]
  else if c = ' ' then "+"
  else String.mk ((utf8Char c).foldr (fun b acc => '%' :: hexDigit (b / 16) :: hexDigit (b % 16) :: acc) [])

/-- Percent-encode a string as `urllib.parse.quote_plus`. -/
def quotePlus (s : String) : String :=
  s.toList.foldl (fun acc c => acc ++ quotePlusChar c) ""

/-- Render a parameter dict as a query string, as `requests` does for the
`params=` keyword: pairs whose value is `None` are dropped, the rest are
percent-encoded and joined with `&`; the result carries a leading `?`
when non-empty. -/
def encodeQuery (ps : List (String × Option String)) : String :=
  match ps.filterMap (fun p => p.2.map (fun v => quotePlus p.1 ++ "=" ++ quotePlus v)) with
  | [] => ""
  | kept => "?" ++ joinSep "&" kept

/-- A prepared HTTP request, as seen by the authentication hook: the
fields of `requests.PreparedRequest` that `FXRfqAuth.__call__` reads or
writes.  `path_url` is the path plus query string (no scheme or host),
`body` is the serialized body if any, `headers` an association list. -/
structure Request where
  method : String
  path_url : String
  body : Option String
  headers : List (String × String)
deriving DecidableEq

/-- The credential triple held by the authentication hook
(`FXRfqAuth.__init__`). -/
structure FXRfqAuth where
  api_key : String
  secret_key : String
  passphrase : String
deriving DecidableEq

/-- First value bound to a key in an association list (dict lookup). -/
def assocFind : List (String × String) → String → Option String
  | [], _ => none
  | p :: rest, k => if p.1 = k then some p.2 else assocFind rest k

/-- Python `dict.update` on an association list: keys of `new` replace
existing bindings, all other bindings are kept. -/
def headersUpdate (old new : List (String × String)) : List (String × String) :=
  old.filter (fun p => !((new.map Prod.fst).contains p.1)) ++ new

/-- The body component of the signing message:
`request.body.decode() if request.body else ''`. -/
def bodyString : Option String → String
  | none => ""
  | some b => b

/-- The signing message of `FXRfqAuth.__call__`:
`timestamp + request.method + request.path_url + request_body`. -/
def signingMessage (timestamp : String) (request : Request) : String :=
  timestamp ++ request.method ++ request.path_url ++ bodyString request.body

/-- The signer `FXRfqAuth.__call__`, embedded with the wall-clock
timestamp `str(time.time())` passed in as an argument.  A
`binascii.Error` from `base64.b64decode` of the secret key propagates as
`Except.error`, raised before the request's headers are touched; on
success the four `FX-ACCESS-*` headers and `Content-Type` are attached
and the request returned. -/
def fxAuthCall (auth : FXRfqAuth) (timestamp : String) (request : Request) :
    Except String Request :=
  let message := signingMessage timestamp request
  match b64decode auth.secret_key with
  | Except.error e => Except.error e
  | Except.ok hmac_key =>
    let signature_b64 := b64encodeBytes (hmacSha256 hmac_key (utf8Encode message))
    let newHeaders := [("FX-ACCESS-SIGN", signature_b64),
                       ("FX-ACCESS-TIMESTAMP", timestamp),
                       ("FX-ACCESS-KEY", auth.api_key),
                       ("FX-ACCESS-PASSPHRASE", auth.passphrase),
                       ("Content-Type", "application/json")]
    Except.ok { request with headers := headersUpdate request.headers newHeaders }

/-- An HTTP call as issued by a client method through
`requests.Session`: a method, a full URL, optional query parameters
(the `params=` keyword, values `None` when the caller omitted them) and
an optional JSON body (the `json=` keyword). -/
structure HttpCall where
  method : String
  url : String
  queryParams : List (String × Option String)
  jsonBody : Option JVal

/-- The path-plus-query part of a URL: scheme and host stripped. -/
def pathOfUrl (u : String) : String :=
  let rest := if "https://".isPrefixOf u then u.drop 8
    else if "http://".isPrefixOf u then u.drop 7 else u
  match rest.toList.dropWhile (fun c => c ≠ '/') with
  | [] => "/"
  | l => String.mk l

/-- Turn an `HttpCall` into the prepared `Request` the authentication
hook receives: `requests` appends the encoded query parameters to the
path, serializes a `json=` body and sets its content type. -/
def prepare (call : HttpCall) : Request :=
  { method := call.method
    path_url := pathOfUrl call.url ++ encodeQuery call.queryParams
    body := call.jsonBody.map serializeJVal
    headers := match call.jsonBody with
      | some _ => [("Content-Type", "application/json")]
      | none => [] }

/-- An HTTP response as the client sees it: the status code, the raw
body text, and the result of `response.json()` (the parse of the body
performed by the `requests` library, modelled as a field). -/
structure Response where
  status_code : Nat
  text : String
  json : JVal

/-- The client state: `FalconxClient.__init__` stores the base URL and
the authentication hook (held both as `self.auth` and as
`self.session.auth`; one field models both).  `auth` is an `Option` so
that the per-method `if not self.auth` guards can be stated. -/
structure FalconxClient where
  url : String
  auth : Option FXRfqAuth

/-- Python truthiness of an optional string argument: `None` and the
empty string are falsy. -/
def truthy : Option String → Bool
  | none => false
  | some s => !s.isEmpty

/-- The constructor `FalconxClient.__init__`: if `key and secret and
passphrase` is truthy the hook is created and stored, otherwise the
constructor raises (modelled as `Except.error`) and no client value
exists.  No network activity occurs either way. -/
def clientInit (key secret passphrase : Option String)
    (url : String := "https://api.falconx.io/v1/") : Except String FalconxClient :=
  if truthy key && truthy secret && truthy passphrase then
    Except.ok { url := url,
                auth := some { api_key := key.getD "", secret_key := secret.getD "",
                               passphrase := passphrase.getD "" } }
  else
    Except.error "key, secret and passphrase are necessary for authentication"

/-- The response normalizer `FalconxClient._process_response`: a 200
response yields the parsed JSON body verbatim, anything else yields the
synthetic record with the status code and raw body text.  The function
is total: no exception is raised on non-200 statuses. -/
def process_response (response : Response) : JVal :=
  if response.status_code = 200 then response.json
  else JVal.obj [("status", JVal.num response.status_code), ("text", JVal.str response.text)]

/-- A `None`-or-string argument as a JSON value. -/
def optJStr : Option String → JVal
  | none => JVal.null
  | some s => JVal.str s

/-- A `None`-or-number argument as a JSON value. -/
def optJNum : Option Int → JVal
  | none => JVal.null
  | some n => JVal.num n

/-- The message of the exception each guarded endpoint method raises. -/
def authRequired : String := "Authentication is required for this API call"

/-- One invocation of a public endpoint method of `FalconxClient`,
with its arguments.  Optional (default `None`) Python arguments are
`Option` values; numeric arguments are embedded as `Int`. -/
inductive Op where
  | get_trading_pairs : Op
  | get_quote (base quote : String) (quantity : Int) (side : String)
      (client_order_id : Option String) : Op
  | place_order (base quote : String) (quantity : Int) (side order_type : String)
      (time_in_force : Option String) (limit_price slippage_bps : Option Int)
      (client_order_id : Option String) : Op
  | execute_quote (fx_quote_id side : String) : Op
  | get_quote_status (fx_quote_id : String) : Op
  | get_executed_quotes (t_start t_end : String) (platform : Option String) : Op
  | get_balances (platform : Option String) : Op
  | get_transfers (t_start t_end platform : Option String) : Op
  | get_trade_volume (t_start t_end : String) : Op
  | get_30_day_trailing_volume : Op
  | get_trade_limits (platform : String) : Op
  | submit_withdrawal_request (token : String) (amount : Int) (platform : String) : Op
  | get_rate_limits : Op
  | get_trade_sizes : Op
  | get_total_balances : Op
  | get_derivatives (trade_status product_type market_list : Option String) : Op

/-- Run one endpoint method: the faithful translation of each method
body of `FalconxClient`, up to the point where the HTTP call is handed
to `requests`.  The result pairs the method's outcome — `Except.error`
for a raised exception, `Except.ok` with the issued call otherwise —
with the client state the method leaves behind; no method assigns to
`self`, so every branch returns `c` itself. -/
def runOp (c : FalconxClient) : Op → Except String HttpCall × FalconxClient
  | Op.get_trading_pairs =>
    (Except.ok { method := "GET", url := c.url ++ "pairs", queryParams := [], jsonBody := none }, c)
  | Op.get_quote base quote quantity side client_order_id =>
    match c.auth with
    | none => (Except.error authRequired, c)
    | some _ =>
      let params := JVal.obj
        [("token_pair", JVal.obj [("base_token", JVal.str base), ("quote_token", JVal.str quote)]),
         ("quantity", JVal.obj [("token", JVal.str base), ("value", JVal.str (toString quantity))]),
         ("side", JVal.str side),
         ("client_order_id", optJStr client_order_id)]
      (Except.ok { method := "POST", url := c.url ++ "quotes", queryParams := [],
                   jsonBody := some params }, c)
  | Op.place_order base quote quantity side order_type time_in_force limit_price slippage_bps
      client_order_id =>
    match c.auth with
    | none => (Except.error authRequired, c)
    | some _ =>
      let params := JVal.obj
        [("token_pair", JVal.obj [("base_token", JVal.str base), ("quote_token", JVal.str quote)]),
         ("quantity", JVal.obj [("token", JVal.str base), ("value", JVal.str (toString quantity))]),
         ("side", JVal.str side),
         ("order_type", JVal.str order_type),
         ("time_in_force", optJStr time_in_force),
         ("limit_price", optJNum limit_price),
         ("slippage_bps", optJNum slippage_bps),
         ("client_order_id", optJStr client_order_id)]
      (Except.ok { method := "POST", url := c.url ++ "order", queryParams := [],
                   jsonBody := some params }, c)
  | Op.execute_quote fx_quote_id side =>
    match c.auth with
    | none => (Except.error authRequired, c)
    | some _ =>
      let params := JVal.obj [("fx_quote_id", JVal.str fx_quote_id), ("side", JVal.str side)]
      (Except.ok { method := "POST", url := c.url ++ "quotes/execute", queryParams := [],
                   jsonBody := some params }, c)
  | Op.get_quote_status fx_quote_id =>
    match c.auth with
    | none => (Except.error authRequired, c)
    | some _ =>
      (Except.ok { method := "GET", url := c.url ++ "quotes/" ++ fx_quote_id, queryParams := [],
                   jsonBody := none }, c)
  | Op.get_executed_quotes t_start t_end platform =>
    match c.auth with
    | none => (Except.error authRequired, c)
    | some _ =>
      (Except.ok { method := "GET", url := c.url ++ "quotes",
                   queryParams := [("t_start", some t_start), ("t_end", some t_end),
                                   ("platform", platform)],
                   jsonBody := none }, c)
  | Op.get_balances platform =>
    match c.auth with
    | none => (Except.error authRequired, c)
    | some _ =>
      (Except.ok { method := "GET", url := c.url ++ "balances",
                   queryParams := [("platform", platform)], jsonBody := none }, c)
  | Op.get_transfers t_start t_end platform =>
    match c.auth with
    | none => (Except.error authRequired, c)
    | some _ =>
      (Except.ok { method := "GET", url := c.url ++ "transfers",
                   queryParams := [("t_start", t_start), ("t_end", t_end),
                                   ("platform", platform)],
                   jsonBody := none }, c)
  | Op.get_trade_volume t_start t_end =>
    match c.auth with
    | none => (Except.error authRequired, c)
    | some _ =>
      (Except.ok { method := "GET", url := c.url ++ "get_trade_volume",
                   queryParams := [("t_start", some t_start), ("t_end", some t_end)],
                   jsonBody := none }, c)
  | Op.get_30_day_trailing_volume =>
    (Except.ok { method := "GET", url := c.url ++ "get_30_day_trailing_volume",
                 queryParams := [], jsonBody := none }, c)
  | Op.get_trade_limits platform =>
    match c.auth with
    | none => (Except.error authRequired, c)
    | some _ =>
      (Except.ok { method := "GET", url := c.url ++ "get_trade_limits/" ++ platform,
                   queryParams := [], jsonBody := none }, c)
  | Op.submit_withdrawal_request token amount platform =>
    match c.auth with
    | none => (Except.error authRequired, c)
    | some _ =>
      (Except.ok { method := "POST", url := c.url ++ "withdraw",
                   queryParams := [("token", some token), ("amount", some (toString amount)),
                                   ("platform", some platform)],
                   jsonBody := none }, c)
  | Op.get_rate_limits =>
    match c.auth with
    | none => (Except.error authRequired, c)
    | some _ =>
      (Except.ok { method := "GET", url := c.url ++ "rate_limit", queryParams := [],
                   jsonBody := none }, c)
  | Op.get_trade_sizes =>
    match c.auth with
    | none => (Except.error authRequired, c)
    | some _ =>
      (Except.ok { method := "GET", url := c.url ++ "trade_sizes", queryParams := [],
                   jsonBody := none }, c)
  | Op.get_total_balances =>
    match c.auth with
    | none => (Except.error authRequired, c)
    | some _ =>
      (Except.ok { method := "GET", url := c.url ++ "balances/total", queryParams := [],
                   jsonBody := none }, c)
  | Op.get_derivatives trade_status product_type market_list =>
    match c.auth with
    | none => (Except.error authRequired, c)
    | some _ =>
      (Except.ok { method := "GET", url := c.url ++ "derivatives",
                   queryParams := [("trade_status", trade_status),
                                   ("product_type", product_type),
                                   ("market_list", market_list)],
                   jsonBody := none }, c)

/-- Whether a method's body contains the defensive
`if not self.auth: raise` guard.  Reading `client.py` top to bottom:
every endpoint method has it except `get_trading_pairs` and
`get_30_day_trailing_volume`. -/
def hasAuthGuard : Op → Bool
  | Op.get_trading_pairs => false
  | Op.get_30_day_trailing_volume => false
  | _ => true

/-- The signature value attached by the signer (`hmac.new` over the
UTF-8 message followed by `base64.b64encode`, lines 444-445 of
`client.py`). -/
def signatureB64 (hmac_key : List Nat) (message : String) : String :=
  b64encodeBytes (hmacSha256 hmac_key (utf8Encode message))

/-- The bytes of the ASCII string `secret`, that is, the base64 decoding
of `c2VjcmV0`; a sample HMAC key for concrete witnesses. -/
def secretBytes : List Nat := [115, 101, 99, 114, 101, 116]

/-- A sample authentication hook with a base64-decodable secret. -/
def authSample : FXRfqAuth :=
  { api_key := "api-key", secret_key := "c2VjcmV0", passphrase := "pass-phrase" }

/-- A sample client holding `authSample` and the default base URL. -/
def clientSample : FalconxClient :=
  { url := "https://api.falconx.io/v1/", auth := some authSample }

/-- A client record whose `auth` slot is empty, the configuration the
defensive per-method guards test for. -/
def clientNoAuth : FalconxClient :=
  { url := "https://api.falconx.io/v1/", auth := none }

/-- A sample bodyless GET request before signing. -/
def getRequestSample : Request :=
  { method := "GET", path_url := "/v1/pairs", body := none, headers := [] }

end Falconx

namespace Falconx

theorem assocFind_headersUpdate (old new : List (String × String)) (k : String)
    (hk : k ∈ new.map Prod.fst) :
    assocFind (headersUpdate old new) k = assocFind new k := by
  induction old with
  | nil => rfl
  | cons p rest ih =>
    unfold headersUpdate at ih ⊢
    by_cases hp : p.1 ∈ new.map Prod.fst
    · simpa [List.filter_cons, hp] using ih
    · have hne : ¬ p.1 = k := fun h => hp (h ▸ hk)
      simpa [List.filter_cons, hp, assocFind, hne] using ih

/-- C1: for every outgoing request, when the secret key decodes, the
signer builds the signing message as the delimiter-free concatenation of
the timestamp string, the HTTP method, the path with query string, and
the raw body (empty when absent); it signs the UTF-8 message with
HMAC-SHA256 under the base64-decoded secret, base64-encodes the digest,
and attaches the FX-ACCESS-SIGN, FX-ACCESS-TIMESTAMP, FX-ACCESS-KEY and
FX-ACCESS-PASSPHRASE headers with exactly those values; and every
request a client method issues carries an uppercase method, GET or
POST. -/
theorem signer_message_and_headers :
    (∀ (auth : FXRfqAuth) (ts : String) (req : Request) (key : List Nat),
      b64decode auth.secret_key = Except.ok key →
      ∃ r, fxAuthCall auth ts req = Except.ok r ∧
        assocFind r.headers "FX-ACCESS-SIGN" =
          some (signatureB64 key (ts ++ req.method ++ req.path_url ++ bodyString req.body)) ∧
        assocFind r.headers "FX-ACCESS-TIMESTAMP" = some ts ∧
        assocFind r.headers "FX-ACCESS-KEY" = some auth.api_key ∧
        assocFind r.headers "FX-ACCESS-PASSPHRASE" = some auth.passphrase) ∧
    (∀ (c : FalconxClient) (op : Op) (call : HttpCall),
      (runOp c op).1 = Except.ok call → call.method = "GET" ∨ call.method = "POST") := by
  constructor
  · intro auth ts req key hkey
    have heq : fxAuthCall auth ts req = Except.ok
        { req with
          headers := headersUpdate req.headers
                       [("FX-ACCESS-SIGN", signatureB64 key (signingMessage ts req)),
                        ("FX-ACCESS-TIMESTAMP", ts),
                        ("FX-ACCESS-KEY", auth.api_key),
                        ("FX-ACCESS-PASSPHRASE", auth.passphrase),
                        ("Content-Type", "application/json")] } := by
      unfold fxAuthCall
      rw [hkey]
      rfl
    refine ⟨_, heq, ?_, ?_, ?_, ?_⟩
    all_goals
      rw [assocFind_headersUpdate _ _ _ (by simp)]
      rfl
  · intro c op call hcall
    cases op <;> cases hauth : c.auth <;>
      simp [runOp, hauth] at hcall <;> simp [← hcall]

/-- Witness for C1: the signer applied to a concrete bodyless GET
request under a concrete decodable secret, and a concrete client call
with its uppercase method. -/
theorem signer_message_and_headers_witness :
    b64decode "c2VjcmV0" = Except.ok secretBytes ∧
    (∃ r, fxAuthCall authSample "1600000000.0" getRequestSample = Except.ok r ∧
      assocFind r.headers "FX-ACCESS-SIGN" =
        some (signatureB64 secretBytes ("1600000000.0" ++ "GET" ++ "/v1/pairs" ++ "")) ∧
      assocFind r.headers "FX-ACCESS-TIMESTAMP" = some "1600000000.0" ∧
      assocFind r.headers "FX-ACCESS-KEY" = some "api-key" ∧
      assocFind r.headers "FX-ACCESS-PASSPHRASE" = some "pass-phrase") ∧
    ("GET" = "GET" ∨ "GET" = "POST") := by
  refine ⟨rfl, ?_, ?_⟩
  · exact signer_message_and_headers.1 authSample "1600000000.0" getRequestSample secretBytes rfl
  · exact signer_message_and_headers.2 clientSample Op.get_trading_pairs
      { method := "GET", url := "https://api.falconx.io/v1/pairs", queryParams := [],
        jsonBody := none } rfl

/-- C2: the response normalizer returns the parsed JSON body verbatim on
status 200 and the record with keys `status` and `text` on any other
status; in particular a 404 with body `not found` normalizes to the
corresponding record, and no exception is raised (the function is
total). -/
theorem process_response_normalization (r : Response) :
    (r.status_code = 200 → process_response r = r.json) ∧
    (r.status_code ≠ 200 →
      process_response r =
        JVal.obj [("status", JVal.num r.status_code), ("text", JVal.str r.text)]) ∧
    process_response { status_code := 404, text := "not found", json := JVal.null } =
      JVal.obj [("status", JVal.num 404), ("text", JVal.str "not found")] := by
  refine ⟨fun h => ?_, fun h => ?_, rfl⟩
  · simp [process_response, h]
  · simp [process_response, h]

/-- Witness for C2: both branches of the normalizer at concrete
responses — a 200 passing its parsed body through and the 404 example. -/
theorem process_response_normalization_witness :
    process_response { status_code := 200, text := "[]", json := JVal.arr [] } = JVal.arr [] ∧
    (404 : Nat) ≠ 200 ∧
    process_response { status_code := 404, text := "not found", json := JVal.null } =
      JVal.obj [("status", JVal.num 404), ("text", JVal.str "not found")] :=
  ⟨(process_response_normalization ⟨200, "[]", JVal.arr []⟩).1 rfl, by decide,
   (process_response_normalization ⟨404, "not found", JVal.null⟩).2.1 (by decide)⟩

/-- C3: constructing a client with any of the three credentials missing
(`None`) or empty (falsy) raises before any network activity, so no
client value exists in that case; with all three present and non-empty,
construction succeeds and stores them in the authentication hook. -/
theorem client_init_credentials :
    (∀ key secret passphrase : Option String, ∀ url : String,
      truthy key = false ∨ truthy secret = false ∨ truthy passphrase = false →
      clientInit key secret passphrase url =
        Except.error "key, secret and passphrase are necessary for authentication") ∧
    (∀ k s p url : String, k ≠ "" → s ≠ "" → p ≠ "" →
      clientInit (some k) (some s) (some p) url =
        Except.ok { url := url,
                    auth := some { api_key := k, secret_key := s, passphrase := p } }) := by
  constructor
  · intro key secret passphrase url h
    unfold clientInit
    rcases h with h | h | h <;> simp [h]
  · intro k s p url hk hs hp
    have hb : ∀ x : String, x ≠ "" → x.isEmpty = false := by
      intro x hx
      cases he : x.isEmpty
      · rfl
      · exact absurd ((String.isEmpty_iff x).mp he) hx
    have t1 : truthy (some k) = true := by simp [truthy, hb k hk]
    have t2 : truthy (some s) = true := by simp [truthy, hb s hs]
    have t3 : truthy (some p) = true := by simp [truthy, hb p hp]
    unfold clientInit
    simp [t1, t2, t3]

/-- Witness for C3: a falsy credential set is rejected with the
constructor's exception, and a complete one is stored as given. -/
theorem client_init_credentials_witness :
    (truthy (some "") = false ∨ truthy (some "s") = false ∨ truthy none = false) ∧
    clientInit (some "") (some "s") none "https://api.falconx.io/v1/" =
      Except.error "key, secret and passphrase are necessary for authentication" ∧
    ("k" : String) ≠ "" ∧
    clientInit (some "k") (some "c2VjcmV0") (some "pp") "https://api.falconx.io/v1/" =
      Except.ok { url := "https://api.falconx.io/v1/",
                  auth := some { api_key := "k", secret_key := "c2VjcmV0",
                                 passphrase := "pp" } } :=
  ⟨Or.inl rfl,
   client_init_credentials.1 (some "") (some "s") none _ (Or.inl rfl),
   by decide,
   client_init_credentials.2 "k" "c2VjcmV0" "pp" _ (by decide) (by decide) (by decide)⟩

/-- Counterexample to C4: `get_trading_pairs` contains no
`if not self.auth` guard, so on a client record whose `auth` slot is
empty it raises nothing and issues its GET call anyway — refuting the
claim that every public endpoint method validates authentication before
issuing the HTTP call. -/
theorem get_trading_pairs_no_auth_check :
    (runOp clientNoAuth Op.get_trading_pairs).1 =
      Except.ok { method := "GET", url := "https://api.falconx.io/v1/pairs",
                  queryParams := [], jsonBody := none } := rfl

/-- C4 amended: every endpoint method except `get_trading_pairs` and
`get_30_day_trailing_volume` raises the authentication exception, before
any HTTP call, whenever authentication is not configured; those two
methods issue their GET without the defensive check (construction does
guarantee `auth` is populated, so the missing check is unreachable
through `clientInit`). -/
theorem auth_guard_behavior (c : FalconxClient) (op : Op) :
    (hasAuthGuard op = true → c.auth = none → (runOp c op).1 = Except.error authRequired) ∧
    (hasAuthGuard op = false → ∃ call, (runOp c op).1 = Except.ok call) := by
  cases op <;> constructor <;> intro hg <;>
    first
    | exact Bool.noConfusion hg
    | (intro hnone; simp [runOp, hnone])
    | exact ⟨_, rfl⟩

/-- Witness for C4 (amended): a guarded method raises on a client with
no authentication, and an unguarded one still issues its call. -/
theorem auth_guard_behavior_witness :
    hasAuthGuard (Op.get_quote "BTC" "USD" 10 "buy" none) = true ∧
    (runOp clientNoAuth (Op.get_quote "BTC" "USD" 10 "buy" none)).1 =
      Except.error authRequired ∧
    hasAuthGuard Op.get_30_day_trailing_volume = false ∧
    (∃ call, (runOp clientNoAuth Op.get_30_day_trailing_volume).1 = Except.ok call) :=
  ⟨rfl,
   (auth_guard_behavior clientNoAuth (Op.get_quote "BTC" "USD" 10 "buy" none)).1 rfl rfl,
   rfl,
   (auth_guard_behavior clientNoAuth Op.get_30_day_trailing_volume).2 rfl⟩

/-- Counterexample to C5: the signer's `headers.update` dict literal
unconditionally contains the `Content-Type: application/json` entry, so
a bodyless GET request also receives it — refuting the claim that the
signer sets the content type only when a body is present. -/
theorem content_type_set_without_body :
    ∃ r, fxAuthCall authSample "1600000000.0" getRequestSample = Except.ok r ∧
      getRequestSample.body = none ∧
      assocFind r.headers "Content-Type" = some "application/json" := by
  refine ⟨_, rfl, rfl, ?_⟩
  rw [assocFind_headersUpdate _ _ _ (by simp)]
  rfl

/-- C5 amended: the signer sets `Content-Type: application/json` on
every request it signs, whether or not the request has a body. -/
theorem content_type_always_set (auth : FXRfqAuth) (ts : String) (req r : Request)
    (h : fxAuthCall auth ts req = Except.ok r) :
    assocFind r.headers "Content-Type" = some "application/json" := by
  cases hkey : b64decode auth.secret_key with
  | error e =>
    have herr : fxAuthCall auth ts req = Except.error e := by
      unfold fxAuthCall; rw [hkey]
    rw [herr] at h
    exact absurd h (by simp)
  | ok key =>
    have heq : fxAuthCall auth ts req = Except.ok
        { req with
          headers := headersUpdate req.headers
                       [("FX-ACCESS-SIGN", signatureB64 key (signingMessage ts req)),
                        ("FX-ACCESS-TIMESTAMP", ts),
                        ("FX-ACCESS-KEY", auth.api_key),
                        ("FX-ACCESS-PASSPHRASE", auth.passphrase),
                        ("Content-Type", "application/json")] } := by
      unfold fxAuthCall; rw [hkey]; rfl
    rw [heq] at h
    injection h with h'
    subst h'
    show assocFind (headersUpdate req.headers
      [("FX-ACCESS-SIGN", signatureB64 key (signingMessage ts req)),
       ("FX-ACCESS-TIMESTAMP", ts),
       ("FX-ACCESS-KEY", auth.api_key),
       ("FX-ACCESS-PASSPHRASE", auth.passphrase),
       ("Content-Type", "application/json")]) "Content-Type" = some "application/json"
    rw [assocFind_headersUpdate _ _ _ (by simp)]
    rfl

/-- Witness for C5 (amended): the signer applied to a concrete POST
request that does carry a body also yields the content-type header. -/
theorem content_type_always_set_witness :
    ∃ r, fxAuthCall authSample "1600000000.0"
        { method := "POST", path_url := "/v1/quotes", body := some "\x7b\x7d", headers := [] } =
        Except.ok r ∧
      assocFind r.headers "Content-Type" = some "application/json" := by
  refine ⟨_, rfl, ?_⟩
  exact content_type_always_set authSample "1600000000.0" _ _ rfl

/-- C6: `get_quote(base="BTC", quote="USD", quantity=10, side="buy")`
issues a POST to the quotes path whose JSON body carries the token pair,
the quantity stringified with the base token as its token, and the side
(plus the omitted `client_order_id` as JSON null). -/
theorem get_quote_body_fields :
    (runOp clientSample (Op.get_quote "BTC" "USD" 10 "buy" none)).1 =
      Except.ok
        { method := "POST", url := "https://api.falconx.io/v1/quotes", queryParams := [],
          jsonBody := some (JVal.obj
            [("token_pair", JVal.obj [("base_token", JVal.str "BTC"),
                                      ("quote_token", JVal.str "USD")]),
             ("quantity", JVal.obj [("token", JVal.str "BTC"), ("value", JVal.str "10")]),
             ("side", JVal.str "buy"),
             ("client_order_id", JVal.null)]) } := rfl

/-- C7: when the stored secret key is not valid base64, the signer
raises the decode error and produces no signed request at all — the
request is never transmitted and its headers are never updated. -/
theorem signer_bad_secret_fails (auth : FXRfqAuth) (ts : String) (req : Request) (e : String)
    (h : b64decode auth.secret_key = Except.error e) :
    fxAuthCall auth ts req = Except.error e := by
  unfold fxAuthCall
  rw [h]

/-- Witness for C7: the three-character secret `abc` is rejected by
`base64.b64decode` (incorrect padding), and signing with it fails
without producing a request. -/
theorem signer_bad_secret_fails_witness :
    b64decode "abc" = Except.error "Incorrect padding" ∧
    fxAuthCall { api_key := "k", secret_key := "abc", passphrase := "p" } "1600000000.0"
        { method := "GET", path_url := "/v1/pairs", body := none, headers := [("Accept", "a")] } =
      Except.error "Incorrect padding" :=
  ⟨rfl, signer_bad_secret_fails _ "1600000000.0" _ "Incorrect padding" rfl⟩

/-- C8: the signature value is a deterministic function of the exact
inputs — identical key, timestamp, method, path and body always yield
the identical signature — while at a concrete key and request, two
bodies differing in one byte yield different signatures, so a body
changed after signing no longer verifies against the old signature. -/
theorem signature_deterministic_and_body_sensitive :
    (∀ (key : List Nat) (ts m p b b' : String), b = b' →
      signatureB64 key (ts ++ m ++ p ++ b) = signatureB64 key (ts ++ m ++ p ++ b')) ∧
    signatureB64 secretBytes ("1600000000.0" ++ "POST" ++ "/v1/quotes" ++ "bodyA") ≠
      signatureB64 secretBytes ("1600000000.0" ++ "POST" ++ "/v1/quotes" ++ "bodyB") := by
  constructor
  · intro key ts m p b b' h
    rw [h]
  · set_option maxRecDepth 200000 in decide

/-- Witness for C8: determinism applied at a concrete key and message. -/
theorem signature_deterministic_and_body_sensitive_witness :
    signatureB64 secretBytes ("1600000000.0" ++ "GET" ++ "/v1/pairs" ++ "") =
      signatureB64 secretBytes ("1600000000.0" ++ "GET" ++ "/v1/pairs" ++ "") :=
  signature_deterministic_and_body_sensitive.1 secretBytes "1600000000.0" "GET" "/v1/pairs"
    "" "" rfl

/-- C9: no endpoint method mutates the client: the state a method
returns is the client it was called on, so the URL, the authentication
hook and the credential fields are unchanged by every call. -/
theorem runOp_preserves_client (c : FalconxClient) (op : Op) :
    (runOp c op).2 = c ∧ (runOp c op).2.url = c.url ∧ (runOp c op).2.auth = c.auth := by
  obtain ⟨url, auth⟩ := c
  cases op <;> cases auth <;> exact ⟨rfl, rfl, rfl⟩

/-- C10: `submit_withdrawal_request` sends token, amount and platform as
URL query parameters with an empty body, so they reach the signing
message through the path-with-query component and the body component is
empty; `get_quote`, `place_order` and `execute_quote` instead send their
parameters as a JSON body with no query parameters. -/
theorem withdrawal_params_in_query (c : FalconxClient) (a : FXRfqAuth) (hc : c.auth = some a) :
    (∀ (token : String) (amount : Int) (platform : String),
      ∃ w, (runOp c (Op.submit_withdrawal_request token amount platform)).1 = Except.ok w ∧
        w.method = "POST" ∧
        w.queryParams = [("token", some token), ("amount", some (toString amount)),
                         ("platform", some platform)] ∧
        w.jsonBody = none ∧
        (prepare w).body = none ∧
        (prepare w).path_url = pathOfUrl (c.url ++ "withdraw") ++
          encodeQuery [("token", some token), ("amount", some (toString amount)),
                       ("platform", some platform)] ∧
        ∀ ts, signingMessage ts (prepare w) = ts ++ "POST" ++ (prepare w).path_url) ∧
    (∀ (base quote : String) (quantity : Int) (side : String) (coid : Option String),
      ∃ q, (runOp c (Op.get_quote base quote quantity side coid)).1 = Except.ok q ∧
        q.queryParams = [] ∧ q.jsonBody.isSome = true ∧ (prepare q).body.isSome = true) ∧
    (∀ (base quote : String) (quantity : Int) (side otype : String) (tif : Option String)
        (lp sbps : Option Int) (coid : Option String),
      ∃ o, (runOp c (Op.place_order base quote quantity side otype tif lp sbps coid)).1 =
          Except.ok o ∧
        o.queryParams = [] ∧ o.jsonBody.isSome = true ∧ (prepare o).body.isSome = true) ∧
    (∀ fx_quote_id side : String,
      ∃ x, (runOp c (Op.execute_quote fx_quote_id side)).1 = Except.ok x ∧
        x.queryParams = [] ∧ x.jsonBody.isSome = true ∧ (prepare x).body.isSome = true) := by
  refine ⟨?_, ?_, ?_, ?_⟩
  · intro token amount platform
    have hrun : (runOp c (Op.submit_withdrawal_request token amount platform)).1 =
        Except.ok { method := "POST", url := c.url ++ "withdraw",
                    queryParams := [("token", some token), ("amount", some (toString amount)),
                                    ("platform", some platform)],
                    jsonBody := none } := by
      simp only [runOp]
      rw [hc]
    refine ⟨_, hrun, rfl, rfl, rfl, rfl, rfl, ?_⟩
    intro ts
    simp [signingMessage, prepare, bodyString, String.append_empty]
  · intro base quote quantity side coid
    have hrun : (runOp c (Op.get_quote base quote quantity side coid)).1 =
        Except.ok { method := "POST", url := c.url ++ "quotes", queryParams := [],
                    jsonBody := some (JVal.obj
                      [("token_pair", JVal.obj [("base_token", JVal.str base),
                                                ("quote_token", JVal.str quote)]),
                       ("quantity", JVal.obj [("token", JVal.str base),
                                              ("value", JVal.str (toString quantity))]),
                       ("side", JVal.str side),
                       ("client_order_id", optJStr coid)]) } := by
      simp only [runOp]
      rw [hc]
    exact ⟨_, hrun, rfl, rfl, rfl⟩
  · intro base quote quantity side otype tif lp sbps coid
    have hrun : (runOp c (Op.place_order base quote quantity side otype tif lp sbps coid)).1 =
        Except.ok { method := "POST", url := c.url ++ "order", queryParams := [],
                    jsonBody := some (JVal.obj
                      [("token_pair", JVal.obj [("base_token", JVal.str base),
                                                ("quote_token", JVal.str quote)]),
                       ("quantity", JVal.obj [("token", JVal.str base),
                                              ("value", JVal.str (toString quantity))]),
                       ("side", JVal.str side),
                       ("order_type", JVal.str otype),
                       ("time_in_force", optJStr tif),
                       ("limit_price", optJNum lp),
                       ("slippage_bps", optJNum sbps),
                       ("client_order_id", optJStr coid)]) } := by
      simp only [runOp]
      rw [hc]
    exact ⟨_, hrun, rfl, rfl, rfl⟩
  · intro fx_quote_id side
    have hrun : (runOp c (Op.execute_quote fx_quote_id side)).1 =
        Except.ok { method := "POST", url := c.url ++ "quotes/execute", queryParams := [],
                    jsonBody := some (JVal.obj [("fx_quote_id", JVal.str fx_quote_id),
                                                ("side", JVal.str side)]) } := by
      simp only [runOp]
      rw [hc]
    exact ⟨_, hrun, rfl, rfl, rfl⟩

/-- Witness for C10: the withdrawal call at concrete arguments on the
sample client. -/
theorem withdrawal_params_in_query_witness :
    ∃ w, (runOp clientSample (Op.submit_withdrawal_request "BTC" 2 "api")).1 = Except.ok w ∧
      w.method = "POST" ∧
      w.queryParams = [("token", some "BTC"), ("amount", some (toString (2 : Int))),
                       ("platform", some "api")] ∧
      w.jsonBody = none ∧
      (prepare w).body = none ∧
      (prepare w).path_url = pathOfUrl ("https://api.falconx.io/v1/" ++ "withdraw") ++
        encodeQuery [("token", some "BTC"), ("amount", some (toString (2 : Int))),
                     ("platform", some "api")] ∧
      ∀ ts, signingMessage ts (prepare w) = ts ++ "POST" ++ (prepare w).path_url :=
  (withdrawal_params_in_query clientSample authSample rfl).1 "BTC" 2 "api"

end Falconx
